import Mathlib

/-!
Verification development for the Page Parser / Page Map Engine of the agnt
repository. The definitions below are a shallow embedding of
`src/google/adk/tools/browser/implementations/page_parser.py` (host side and
the JavaScript collector script embedded in `_collect_and_process_elements`)
and of `_resolve_selector` from `src/google/adk/tools/browser/base_browser.py`.

Modelling conventions:
- Python / JavaScript strings are modelled as Lean `String` (a list of
  characters); slicing, strip, lower and containment are modelled by the
  `py*` helpers below, which follow Python semantics (for example `s[:n]`
  is `pyTake s n`).
- DOM state that the collector reads through browser APIs (computed style,
  layout box, attribute values, direct text node content, the ancestor
  chain, table cell contents, and the output of the pure selector-synthesis
  walk `generateSelector`) is an input: the `RawDom` record holds exactly
  the values those API calls would return for one element, in document
  order. All collector logic that consumes those values is translated.
- Driver script evaluation is fallible; its result is modelled as
  `Except String (List ElementData)` and the host try/except wrapper in
  `_collect_and_process_elements` is `collect_and_process_elements`.
-/

/-- Python slice `s[:n]` (by code points). -/
def pyTake (s : String) (n : Nat) : String :=
  String.mk (s.data.take n)

/-- Python `str.strip()` (remove leading and trailing whitespace). -/
def pyStrip (s : String) : String :=
  String.mk (((s.data.dropWhile Char.isWhitespace).reverse.dropWhile Char.isWhitespace).reverse)

/-- Python `str.rstrip()` (remove trailing whitespace). -/
def pyRstrip (s : String) : String :=
  String.mk ((s.data.reverse.dropWhile Char.isWhitespace).reverse)

/-- Python `str.lower()` / JavaScript `toLowerCase()` (ASCII case fold). -/
def pyLower (s : String) : String :=
  String.mk (s.data.map Char.toLower)

/-- `p` is a prefix of `s` (Python `str.startswith`, JS `startsWith`). -/
def pyStartsWith (s p : String) : Bool :=
  p.data.isPrefixOf s.data

/-- Character-list substring containment used by `pyIn`. -/
def containsSub (hay needle : List Char) : Bool :=
  match hay with
  | [] => needle.isEmpty
  | _ :: t => needle.isPrefixOf hay || containsSub t needle

/-- Python `needle in hay` / JS `hay.includes(needle)` for strings. -/
def pyIn (needle hay : String) : Bool :=
  containsSub hay.data needle.data

/-- Python `str.isdigit()` restricted to ASCII digits. -/
def pyIsDigit (s : String) : Bool :=
  !s.data.isEmpty && s.data.all Char.isDigit

/-- Python truthiness of an optional string: `None` and `""` are falsy. -/
def pyTruthyOpt (o : Option String) : Bool :=
  (o.getD "") ≠ ""

/-- Python `"sep".join(parts)`. -/
def pyJoin (sep : String) (parts : List String) : String :=
  String.mk (List.intercalate sep.data (parts.map String.data))

/-- Split on whitespace runs dropping empty tokens (JS `classList` tokens,
Python-style `split()` on a class attribute). Accumulator holds the current
token reversed. -/
def splitWsAux : List Char → List Char → List (List Char)
  | acc, [] => if acc.isEmpty then [] else [acc.reverse]
  | acc, c :: rest =>
    if c.isWhitespace then
      if acc.isEmpty then splitWsAux [] rest else acc.reverse :: splitWsAux [] rest
    else splitWsAux (c :: acc) rest

/-- Whitespace tokenisation of a string. -/
def splitWs (s : String) : List String :=
  (splitWsAux [] s.data).map String.mk

/-- Python negative-index tail slice `l[-k:]` for `k > 0`; `l[-0:]` is the
whole list. -/
def pyTailSlice (k : Nat) (l : List α) : List α :=
  if k = 0 then l else l.drop (l.length - k)

/-- Stable insertion for `pySorted`: `x` goes before the first element
that is not strictly smaller, so equal keys keep their original order. -/
def insertStable (lt : α → α → Bool) (x : α) : List α → List α
  | [] => [x]
  | y :: ys => if lt y x then y :: insertStable lt x ys else x :: y :: ys

/-- Python `sorted(l, key=...)` as a stable sort with the strict
comparison `lt` derived from the key. -/
def pySorted (lt : α → α → Bool) : List α → List α
  | [] => []
  | x :: xs => insertStable lt x (pySorted lt xs)

/-! ## Data model

`ElementAttributes`, `PageElement` (from the pydantic models at the top of
page_parser.py) and the JavaScript-side record shapes. -/

/-- Host-side `ElementAttributes` pydantic model. -/
structure ElementAttributes where
  id : String := ""
  aria_label : String := ""
  placeholder : String := ""
  class_name : String := ""
  value : String := ""
  name : String := ""
  type : String := ""
  href : String := ""
  title : String := ""
  disabled : Bool := false
deriving DecidableEq, Repr

/-- The `attributes` object built inside the collector script (it also
carries `alt` and `src`, which the host model drops). -/
structure JsAttributes where
  id : String := ""
  aria_label : String := ""
  placeholder : String := ""
  class_name : String := ""
  value : String := ""
  name : String := ""
  type : String := ""
  href : String := ""
  title : String := ""
  alt : String := ""
  src : String := ""
  disabled : Bool := false
deriving DecidableEq, Repr

/-- One `{text, data_label, title}` record for a `td`/`th` cell of a `tr`. -/
structure TableCell where
  text : String := ""
  data_label : String := ""
  title : String := ""
deriving DecidableEq, Repr

/-- One element record returned by the collector script (the
`elementData` object literal). `ref` is the JS number before the host
stringifies it. -/
structure ElementData where
  ref : Nat
  tag : String
  text : String := ""
  children_text : String := ""
  is_interactive : Bool
  css_selector : String
  attributes : JsAttributes := {}
  data_attributes : List (String × String) := []
  table_cells : List TableCell := []
deriving DecidableEq, Repr

/-- Host-side `PageElement` pydantic model (the fields the parser uses). -/
structure PageElement where
  ref : String
  tag : String
  text : String := ""
  children_text : String := ""
  attributes : ElementAttributes := {}
  is_interactive : Bool
  css_selector : String
  index : Nat := 0
  data_attributes : List (String × String) := []
  table_cells : List TableCell := []
deriving DecidableEq, Repr

/-! ## DOM input for the collector script

The collector reads the DOM through browser APIs. A `RawDom` record holds,
for one element in document order, exactly what those reads would return. -/

/-- An immediate child as seen by the `children_text` loop: its `tagName`
(uppercase, as in the DOM) and the result of `getDirectTextOnly(child)`
(direct text nodes only, whitespace collapsed and trimmed). -/
structure DomChild where
  tag : String
  directText : String
deriving DecidableEq, Repr

/-- One ancestor as seen by the hidden-interactive parent walk: its class
tokens and its `role` attribute. The chain lists parents from nearest
upward and stops before `document.body`. -/
structure DomAncestor where
  classList : List String
  role : Option String
deriving DecidableEq, Repr

/-- One `td`/`th` descendant of a `tr` as returned by
`querySelectorAll` in the table-cell loop. -/
structure DomCell where
  textContent : String
  dataLabel : String
  title : String
deriving DecidableEq, Repr

/-- The browser-visible state of one element. `tag` is
`tagName.toLowerCase()`; `attrs` are the present attributes with their
values (`getAttribute` source); `directText` is `getDirectTextOnly(elem)`;
`textContentTrimmed` is `elem.textContent.trim()`; `cssSelector` is the
result of the pure ancestry walk `generateSelector(elem)` (selector
synthesis is a function of DOM ancestry only and is not examined by any
claim, so its output is part of the input). -/
structure RawDom where
  tag : String
  display : String
  visibility : String
  offsetWidth : Nat
  offsetHeight : Nat
  attrs : List (String × String)
  textContentTrimmed : String
  directText : String
  children : List DomChild
  ancestors : List DomAncestor
  cursor : String
  disabledProp : Bool
  cssSelector : String
  cells : List DomCell
deriving DecidableEq, Repr

/-- JS `elem.getAttribute(n)` (`none` models `null`). -/
def getAttr (d : RawDom) (n : String) : Option String :=
  (d.attrs.find? (fun p => p.1 = n)).map (fun p => p.2)

/-- JS `elem.hasAttribute(n)`. -/
def hasAttr (d : RawDom) (n : String) : Bool :=
  (d.attrs.find? (fun p => p.1 = n)).isSome

/-- JS `elem.getAttribute(n) || ""`. -/
def attrOrEmpty (d : RawDom) (n : String) : String :=
  (getAttr d n).getD ""

/-- JS truthiness of `elem.getAttribute(n)` (`null` and `""` are falsy). -/
def attrTruthy (d : RawDom) (n : String) : Bool :=
  attrOrEmpty d n ≠ ""

/-- JS `elem.classList` (tokens of the class attribute). -/
def domClassList (d : RawDom) : List String :=
  splitWs (attrOrEmpty d "class")

/-- JS `elem.classList.contains(c)`. -/
def classListContains (d : RawDom) (c : String) : Bool :=
  (domClassList d).contains c

/-! ## The collector script -/

/-- `staticTags` set of the collector script (page_parser.py line 256).
It does NOT contain `img`, unlike the Python-side `STATIC_TAGS`. -/
def staticTagsJs : List String :=
  ["div", "p", "h1", "h2", "h3", "h4", "h5", "h6", "li", "th", "td", "tr",
   "table", "label", "caption", "span", "strong", "b", "em", "i", "u",
   "small", "mark", "dl", "dt", "dd"]

/-- `interactiveTags` set of the collector script (line 257). -/
def interactiveTagsJs : List String :=
  ["a", "button", "input", "select", "textarea"]

/-- Python-side `self.STATIC_TAGS` (page_parser.py line 120). This list
DOES contain `img`; compare with `staticTagsJs`. -/
def STATIC_TAGS : List String :=
  ["p", "h1", "h2", "h3", "h4", "h5", "h6", "li", "th", "td", "tr", "table",
   "label", "caption", "span", "strong", "b", "em", "i", "u", "small",
   "mark", "dl", "dt", "dd", "img"]

/-- Hidden-interactive heuristics inside `isElementVisible` (multiselect
options, dropdown items, and hidden dropdown/multiselect containers up to
3 ancestor levels). -/
def isHiddenInteractive (d : RawDom) : Bool :=
  (classListContains d "multiselect__option" ||
   classListContains d "multiselect__element" ||
   hasAttr d "data-select" ||
   hasAttr d "data-option" ||
   hasAttr d "data-value") ||
  (classListContains d "dropdown-item" ||
   classListContains d "option" ||
   classListContains d "select-option" ||
   getAttr d "role" = some "option" ||
   getAttr d "role" = some "menuitem") ||
  ((d.ancestors.take 3).any (fun p =>
     p.classList.contains "multiselect__content" ||
     p.classList.contains "multiselect__content-wrapper" ||
     p.classList.contains "dropdown-menu" ||
     p.classList.contains "select-dropdown" ||
     p.role = some "listbox" ||
     p.role = some "menu"))

/-- `isElementVisible` of the collector script. -/
def isElementVisible (d : RawDom) : Bool :=
  if isHiddenInteractive d then
    d.display ≠ "none" || d.offsetWidth > 0 || d.offsetHeight > 0 ||
      d.textContentTrimmed.length > 0
  else
    d.display ≠ "none" && d.visibility ≠ "hidden" &&
      d.offsetWidth > 0 && d.offsetHeight > 0

/-- Data attributes that suggest interactivity (`dataAttrs` list in
`isInteractive`). -/
def interactiveDataAttrs : List String :=
  ["data-select", "data-click", "data-toggle", "data-action",
   "data-selected", "data-deselect", "data-option", "data-value"]

/-- `interactiveClassPatterns` in `isInteractive`. -/
def interactiveClassPatterns : List String :=
  ["multiselect", "dropdown", "select", "picker", "chooser",
   "toggle", "switch", "slider", "accordion", "tab",
   "menu", "popup", "modal", "dialog", "overlay",
   "clickable", "selectable", "interactive", "control",
   "widget", "component"]

/-- `genericTags` in the cursor-pointer branch of `isInteractive`. -/
def genericTagsJs : List String :=
  ["div", "span", "strong", "b", "em", "i", "u", "small", "mark", "p"]

/-- A meaningful class for the cursor-pointer branch: length above 3, no
framework prefixes, not a 5-8 character alphanumeric hash. -/
def hasMeaningfulClassJs (d : RawDom) : Bool :=
  (splitWs (attrOrEmpty d "class")).any (fun cls =>
    cls.length > 3 &&
    !pyStartsWith cls "css-" &&
    !pyStartsWith cls "sc-" &&
    !pyStartsWith cls "_" &&
    !(5 ≤ cls.length && cls.length ≤ 8 && cls.data.all Char.isAlphanum))

/-- `isInteractive(elem, tagName)` of the collector script. -/
def isInteractiveJs (d : RawDom) (tagName : String) : Bool :=
  if interactiveTagsJs.contains tagName ||
     hasAttr d "onclick" ||
     getAttr d "role" = some "button" ||
     getAttr d "role" = some "link" ||
     getAttr d "role" = some "checkbox" ||
     getAttr d "role" = some "tab" ||
     getAttr d "contenteditable" = some "true" then true
  else if getAttr d "tabindex" = some "0" then true
  else if interactiveDataAttrs.any (fun a => hasAttr d a) then true
  else if interactiveClassPatterns.any
      (fun pat => pyIn pat (pyLower (attrOrEmpty d "class"))) then true
  else if d.cursor = "pointer" then
    if genericTagsJs.contains tagName then false
    else
      (d.textContentTrimmed.length > 0) ||
      attrTruthy d "id" ||
      attrTruthy d "aria-label" ||
      attrTruthy d "title" ||
      hasMeaningfulClassJs d
  else false

/-- Text extraction for one element: direct text only, `alt` fallback for
`img` when there is no direct text, then truncation to 300. -/
def collectText (d : RawDom) (tagName : String) : String :=
  let text := d.directText
  let text := if tagName = "img" && text = "" then attrOrEmpty d "alt" else text
  if text ≠ "" && text.length > 300 then pyTake text 300 else text

/-- `children_text` collection: only for interactive elements with no
direct text; direct text of immediate non-script, non-style children,
joined by single spaces (the source appends each non-empty child text plus
a space and then collapses whitespace and trims; since each child text is
already collapsed and trimmed, that equals this join), truncated to 200. -/
def collectChildrenText (d : RawDom) (text : String) (isInteractiveElem : Bool) : String :=
  if isInteractiveElem && text = "" then
    let parts := (d.children.filter (fun c => c.tag ≠ "SCRIPT" && c.tag ≠ "STYLE")).map
      DomChild.directText
    let t := pyJoin " " (parts.filter (fun s => s ≠ ""))
    if t.length > 200 then pyTake t 200 else t
  else ""

/-- The `elementData` record construction (attribute reads, data-*
collection excluding `data-agent-ref`, and table cells for `tr`). -/
def mkElementData (d : RawDom) (tagName text children_text : String)
    (isInteractiveElem : Bool) (currentRef : Nat) : ElementData :=
  { ref := currentRef
    tag := tagName
    text := text
    children_text := children_text
    is_interactive := isInteractiveElem
    css_selector := d.cssSelector
    attributes :=
      { id := attrOrEmpty d "id"
        aria_label := attrOrEmpty d "aria-label"
        placeholder := attrOrEmpty d "placeholder"
        class_name := attrOrEmpty d "class"
        value := attrOrEmpty d "value"
        name := attrOrEmpty d "name"
        type := attrOrEmpty d "type"
        href := attrOrEmpty d "href"
        title := attrOrEmpty d "title"
        alt := attrOrEmpty d "alt"
        src := attrOrEmpty d "src"
        disabled := d.disabledProp || hasAttr d "disabled" }
    data_attributes := d.attrs.filter
      (fun p => pyStartsWith p.1 "data-" && p.1 ≠ "data-agent-ref")
    table_cells :=
      if tagName = "tr" then
        d.cells.map (fun c =>
          { text := pyStrip c.textContent
            data_label := c.dataLabel
            title := c.title })
      else [] }

/-- One iteration of the collector loop body: tag gate, visibility gate,
text extraction, interactivity, emptiness gate, the 500-element content
cap, ref assignment (`interactiveElements.length + contentElements.length`)
and the push into the matching bucket. -/
def collectStep (inter cont : List ElementData) (d : RawDom) :
    List ElementData × List ElementData :=
  let tagName := d.tag
  if !(staticTagsJs.contains tagName || interactiveTagsJs.contains tagName) then
    (inter, cont)
  else if !(isElementVisible d) then (inter, cont)
  else
    let text := collectText d tagName
    let isInteractiveElem := isInteractiveJs d tagName
    let children_text := collectChildrenText d text isInteractiveElem
    let hasMeaningfulAttributes :=
      attrTruthy d "id" || attrTruthy d "data-id" || attrTruthy d "data-value" ||
        tagName = "tr" || tagName = "img"
    if text = "" && children_text = "" && !isInteractiveElem &&
        !hasMeaningfulAttributes then (inter, cont)
    else if !isInteractiveElem && cont.length ≥ 500 then (inter, cont)
    else
      let ed := mkElementData d tagName text children_text isInteractiveElem
        (inter.length + cont.length)
      if isInteractiveElem then (inter ++ [ed], cont) else (inter, cont ++ [ed])

/-- The collector main loop over all elements in document order. -/
def collectLoop : List RawDom → List ElementData → List ElementData → List ElementData
  | [], inter, cont => inter ++ cont
  | d :: rest, inter, cont =>
    let s := collectStep inter cont d
    collectLoop rest s.1 s.2

/-- The whole collector script: returns
`interactiveElements.concat(contentElements)`. -/
def collector_script (doms : List RawDom) : List ElementData :=
  collectLoop doms [] []

/-! ## Host side -/

/-- `_collect_and_process_elements`: the try/except wrapper around script
evaluation; any exception yields an empty list. -/
def collect_and_process_elements (script_result : Except String (List ElementData)) :
    List ElementData :=
  match script_result with
  | Except.ok data => data
  | Except.error _ => []

/-- Conversion of one collector record into a `PageElement`
(`_build_unified_element_map` loop body): stringify the ref, re-truncate
text at 250 for interactive elements and 500 for content, cap
`children_text` at 200, and drop `alt`/`src` from the attributes. -/
def toPageElement (i : Nat) (ed : ElementData) : PageElement :=
  let text_length := if ed.is_interactive then 250 else 500
  let truncated_text := if ed.text ≠ "" then pyTake ed.text text_length else ""
  let children_text := if ed.children_text ≠ "" then pyTake ed.children_text 200
    else ed.children_text
  { ref := toString ed.ref
    tag := ed.tag
    text := truncated_text
    children_text := children_text
    attributes :=
      { id := ed.attributes.id
        aria_label := ed.attributes.aria_label
        placeholder := ed.attributes.placeholder
        class_name := ed.attributes.class_name
        value := ed.attributes.value
        name := ed.attributes.name
        type := ed.attributes.type
        href := ed.attributes.href
        title := ed.attributes.title
        disabled := ed.attributes.disabled }
    is_interactive := ed.is_interactive
    css_selector := ed.css_selector
    index := i
    data_attributes := ed.data_attributes
    table_cells := ed.table_cells }

/-- `_build_unified_element_map`: convert every collector record, indexed
sequentially (the per-record try/except never fires in this model). -/
def build_unified_element_map (script_result : Except String (List ElementData)) :
    List PageElement :=
  (collect_and_process_elements script_result).enum.map (fun p => toPageElement p.1 p.2)

/-- `_resolve_selector` from base_browser.py: error when both arguments
are absent (None or empty), the ref-derived selector whenever a ref is
supplied, otherwise the selector unchanged. -/
def resolve_selector (selector ref : Option String) : Except String String :=
  if !pyTruthyOpt selector && !pyTruthyOpt ref then
    Except.error "Either selector or ref must be provided"
  else if pyTruthyOpt ref then
    Except.ok ("[data-agent-ref=\"" ++ ref.getD "" ++ "\"]")
  else Except.ok (selector.getD "")

/-! ## Text truncation helpers (`_truncate_text`, `_truncate_url`) -/

/-- `_truncate_text`: unchanged when empty or short enough, otherwise a
right-stripped prefix plus an ellipsis. -/
def truncate_text (text : String) (max_length : Nat) : String :=
  if text = "" || text.length ≤ max_length then text
  else pyRstrip (pyTake text max_length) ++ "..."

/-- Parsed URL pieces in the sense of `urllib.parse.urlparse` for
http/https URLs (fragment discarded where unused). -/
structure UrlParts where
  scheme : String
  netloc : String
  path : String
  query : String
deriving DecidableEq, Repr

/-- Minimal `urlparse` for http/https URLs: netloc up to the first
`/`, `?` or `#`; path up to `?` or `#`; query up to `#`. -/
def pyUrlparse (url : String) : UrlParts :=
  let (scheme, rest) :=
    if pyStartsWith url "https://" then ("https", url.data.drop 8)
    else if pyStartsWith url "http://" then ("http", url.data.drop 7)
    else ("", url.data)
  let netloc := rest.takeWhile (fun c => c ≠ '/' && c ≠ '?' && c ≠ '#')
  let after := rest.drop netloc.length
  let path := after.takeWhile (fun c => c ≠ '?' && c ≠ '#')
  let afterPath := after.drop path.length
  let query :=
    match afterPath with
    | '?' :: t => t.takeWhile (fun c => c ≠ '#')
    | _ => []
  { scheme := scheme, netloc := netloc.asString, path := path.asString,
    query := query.asString }

/-- Python tail slice `s[-k:]` on a string where `k` may exceed the
length; `k = 0` yields the whole string. -/
def pyTailStr (k : Nat) (s : String) : String :=
  String.mk (pyTailSlice k s.data)

/-- `_truncate_url`: URL-aware truncation preserving scheme and host.
The Python index `-remaining_length//2` is floor division of a negative
number, hence the last `ceil(remaining_length/2)` characters. -/
def truncate_url (url : String) (max_length : Nat) : String :=
  if url = "" || url.length ≤ max_length then url
  else if pyStartsWith url "http://" || pyStartsWith url "https://" then
    let parsed := pyUrlparse url
    let domain := parsed.scheme ++ "://" ++ parsed.netloc
    if domain.length ≥ max_length - 10 then pyRstrip (pyTake url max_length) ++ "..."
    else
      let remaining_length := max_length - domain.length - 6
      if remaining_length > 0 then
        let path_part := parsed.path ++ (if parsed.query ≠ "" then "?" ++ parsed.query else "")
        if path_part.length ≤ remaining_length then url
        else
          let end_part :=
            if remaining_length > 10 then pyTailStr ((remaining_length + 1) / 2) path_part
            else ""
          domain ++ "/..." ++ end_part
      else pyRstrip (pyTake url max_length) ++ "..."
  else pyRstrip (pyTake url max_length) ++ "..."

/-! ## Per-element formatting -/

/-- The `description_parts` list of `_format_single_element`: the tag,
the text (or children text), then each present attribute. -/
def fse_description_parts (element_data : PageElement) : List String :=
  let text := pyStrip element_data.text
  [element_data.tag ++ " "]
  ++ (if text ≠ "" then ["TEXT:\"" ++ truncate_text text 100 ++ "\""]
      else if element_data.children_text ≠ "" then
        ["CHILDREN_TEXT:\"" ++ truncate_text element_data.children_text 100 ++ "\""]
      else [])
  ++ (if element_data.attributes.aria_label ≠ "" then
        ["aria-label=\"" ++ truncate_text element_data.attributes.aria_label 50 ++ "\""]
      else [])
  ++ (if element_data.attributes.placeholder ≠ "" then
        ["placeholder=\"" ++ truncate_text element_data.attributes.placeholder 50 ++ "\""]
      else [])
  ++ (if element_data.attributes.id ≠ "" then
        ["id=\"" ++ element_data.attributes.id ++ "\""] else [])
  ++ (if element_data.attributes.value ≠ "" then
        ["value=\"" ++ truncate_text element_data.attributes.value 50 ++ "\""] else [])
  ++ (if element_data.attributes.name ≠ "" then
        ["name=\"" ++ element_data.attributes.name ++ "\""] else [])
  ++ (if element_data.attributes.type ≠ "" then
        ["type=\"" ++ element_data.attributes.type ++ "\""] else [])
  ++ (if element_data.attributes.href ≠ "" then
        ["href=\"" ++ truncate_url element_data.attributes.href 80 ++ "\""] else [])
  ++ (if element_data.attributes.title ≠ "" then
        ["title=\"" ++ truncate_text element_data.attributes.title 50 ++ "\""] else [])
  ++ (if element_data.attributes.disabled then ["disabled=\"True\""] else [])

/-- The `has_identifiers` test of `_format_single_element` (note the
source list does not include `disabled`). -/
def fse_has_identifiers (element_data : PageElement) : Bool :=
  pyStrip element_data.text ≠ "" || element_data.children_text ≠ "" ||
  element_data.attributes.aria_label ≠ "" ||
  element_data.attributes.placeholder ≠ "" ||
  element_data.attributes.id ≠ "" ||
  element_data.attributes.value ≠ "" ||
  element_data.attributes.name ≠ "" ||
  element_data.attributes.type ≠ "" ||
  element_data.attributes.href ≠ "" ||
  element_data.attributes.title ≠ ""

/-- `_format_single_element`: one interactive-map line, or `none` when
the element has no identifier at all. The mode only chooses the line
prefix; the body after the prefix is grouped to the right, which is the
same string the source f-string concatenation produces. -/
def format_single_element (element_data : PageElement) (map_type : String) : Option String :=
  if !fse_has_identifiers element_data then none
  else
    let description := pyJoin " " (fse_description_parts element_data)
    if map_type = "rich" then
      some ("CSS: " ++ element_data.css_selector ++ " | " ++ ("TYPE: " ++ description))
    else
      some ("ref=\"" ++ element_data.ref ++ "\" | " ++ ("TYPE: " ++ description))

/-- The `attr_parts` list of `_format_single_content_element`: id,
title, then every data attribute except `data-agent-ref`. -/
def fsce_attr_parts (element_data : PageElement) : List String :=
  (if element_data.attributes.id ≠ "" then
    ["id=\"" ++ element_data.attributes.id ++ "\""] else [])
  ++ (if element_data.attributes.title ≠ "" then
    ["title=\"" ++ truncate_text element_data.attributes.title 100 ++ "\""] else [])
  ++ (element_data.data_attributes.filter (fun p => p.1 ≠ "data-agent-ref")).map
       (fun p => p.1 ++ "=\"" ++ truncate_text p.2 100 ++ "\"")

/-- The `cell_parts` list for a `tr` line: `label=text` when both are
present, bare text otherwise, empty cells skipped. -/
def fsce_cell_parts (element_data : PageElement) : List String :=
  element_data.table_cells.filterMap (fun cell =>
    let cell_text := if cell.text ≠ "" then truncate_text cell.text 50 else ""
    let label := cell.data_label
    if label ≠ "" && cell_text ≠ "" then some (label ++ "=" ++ cell_text)
    else if cell_text ≠ "" then some cell_text
    else none)

/-- The content line after the mode prefix: tag, attributes, then either
the ROW cell summary (for `tr` with cells) or the truncated text. The
source builds the line left to right starting from the mode prefix;
assembling this body first yields the same string by associativity. -/
def fsce_body (element_data : PageElement) : String :=
  let text := pyStrip element_data.text
  let attr_parts := fsce_attr_parts element_data
  let truncated_text := if text ≠ "" then truncate_text text 200 else ""
  let body := "TAG: " ++ element_data.tag
  let body := if !attr_parts.isEmpty then body ++ " | " ++ pyJoin " " attr_parts else body
  if element_data.tag = "tr" && !element_data.table_cells.isEmpty then
    let cell_parts := fsce_cell_parts element_data
    if !cell_parts.isEmpty then body ++ " | ROW: " ++ pyJoin " | " cell_parts else body
  else if truncated_text ≠ "" then body ++ " | Text: " ++ truncated_text
  else body

/-- The skip test of `_format_single_content_element`: no trimmed text
and no meaningful attribute (id, title or a data attribute). -/
def fsce_skip (element_data : PageElement) : Bool :=
  pyStrip element_data.text = "" &&
    !(element_data.attributes.id ≠ "" || element_data.attributes.title ≠ "" ||
      !element_data.data_attributes.isEmpty)

/-- `_format_single_content_element`: one content-map line, or `none`
when there is neither text nor a meaningful attribute. The mode only
chooses the line prefix. -/
def format_single_content_element (element_data : PageElement) (map_type : String) :
    Option String :=
  if fsce_skip element_data then none
  else if map_type = "rich" then
    some ("CSS: " ++ element_data.css_selector ++ " | " ++ fsce_body element_data)
  else some ("ref=\"" ++ element_data.ref ++ "\" | " ++ fsce_body element_data)

/-! ## Quality score (`_calculate_element_quality`) -/

/-- `tag_scores` dictionary in `_calculate_element_quality`. -/
def tag_scores : List (String × Int) :=
  [("a", 50), ("button", 45), ("input", 40), ("select", 35), ("textarea", 30),
   ("label", 25), ("span", 15), ("div", 10), ("p", 20)]

/-- `_calculate_element_quality`. Note the second selector-length branch
(`elif > 200: score -= 10`) is preserved from the source even though it is
shadowed by the first (`> 100`) branch. -/
def calculate_element_quality (element : PageElement) : Int :=
  let score : Int := 0
  let score := if pyStrip element.text ≠ "" then score + 100
    else if pyStrip element.children_text ≠ "" then score + 50
    else score
  let score := score +
    (((tag_scores.find? (fun p => p.1 = pyLower element.tag)).map (fun p => p.2)).getD 5)
  let score := if element.attributes.id ≠ "" then score + 20 else score
  let score := if element.attributes.href ≠ "" then score + 15 else score
  let score := if element.attributes.aria_label ≠ "" then score + 10 else score
  let score := if element.attributes.type ≠ "" then score + 8 else score
  let score := if element.attributes.name ≠ "" then score + 5 else score
  let score := if element.attributes.value ≠ "" then score + 5 else score
  let score := if element.css_selector.length > 100 then score - 5
    else if element.css_selector.length > 200 then score - 10
    else score
  score

/-! ## Deduplication (`_deduplicate_nested_elements`) -/

/-- Effective text of an element: trimmed `text` when non-empty,
otherwise trimmed `children_text`. -/
def effectiveText (e : PageElement) : String :=
  if pyStrip e.text ≠ "" then pyStrip e.text else pyStrip e.children_text

/-- Append an element to an insertion-ordered group map (Python dict of
lists keyed by effective text). -/
def addToGroups (groups : List (String × List PageElement)) (t : String)
    (e : PageElement) : List (String × List PageElement) :=
  match groups with
  | [] => [(t, [e])]
  | (k, es) :: rest =>
    if k = t then (k, es ++ [e]) :: rest else (k, es) :: addToGroups rest t e

/-- Group the interactive elements by effective text, skipping elements
with no text, preserving dict insertion order. -/
def groupByEffectiveText (els : List PageElement) : List (String × List PageElement) :=
  els.foldl (fun acc e =>
    let t := effectiveText e
    if t = "" then acc else addToGroups acc t e) []

/-- The nesting test used by both passes: child selector extends the
parent selector with a space or `>`, or contains it and is strictly
longer. -/
def isNestedSel (parent_selector child_selector : String) : Bool :=
  pyStartsWith child_selector (parent_selector ++ " ") ||
  pyStartsWith child_selector (parent_selector ++ ">") ||
  (pyIn parent_selector child_selector &&
    child_selector.length > parent_selector.length)

/-- `tag.lower() in ["a", "button", "input", "select", "textarea"]`. -/
def isNativeInteractiveTag (t : String) : Bool :=
  interactiveTagsJs.contains (pyLower t)

/-- Inner loop of the identical-text pass for one parent candidate over
the later elements of the sorted group. Returns the updated removal set
and whether the loop broke because the parent itself was removed. -/
def d1Inner (parent : PageElement) :
    List PageElement → List String → List String × Bool
  | [], removed => (removed, false)
  | c :: rest, removed =>
    if removed.contains c.ref then d1Inner parent rest removed
    else if isNestedSel parent.css_selector c.css_selector then
      let parent_is_interactive := isNativeInteractiveTag parent.tag
      let child_is_interactive := isNativeInteractiveTag c.tag
      if child_is_interactive && !parent_is_interactive then
        (parent.ref :: removed, true)
      else if parent_is_interactive && !child_is_interactive then
        d1Inner parent rest (c.ref :: removed)
      else if calculate_element_quality parent ≥ calculate_element_quality c then
        d1Inner parent rest (c.ref :: removed)
      else (parent.ref :: removed, true)
    else d1Inner parent rest removed

/-- Outer loop of the identical-text pass over the group sorted by
selector length. -/
def d1Outer : List PageElement → List String → List String
  | [], removed => removed
  | p :: rest, removed =>
    if removed.contains p.ref then d1Outer rest removed
    else d1Outer rest (d1Inner p rest removed).1

/-- Python `max(l, key=f)`: the first element attaining the maximum. -/
def pyMaxBy (f : PageElement → Int) : List PageElement → Option PageElement
  | [] => none
  | e :: rest => some (rest.foldl (fun b x => if f x > f b then x else b) e)

/-- Process one identical-text group: pairwise hierarchy resolution, then
keep only the single highest-quality member of what remains. -/
def d1Group (els : List PageElement) (removed : List String) : List String :=
  if els.length ≤ 1 then removed
  else
    let elements_by_hierarchy :=
      pySorted (fun a b => a.css_selector.length < b.css_selector.length) els
    let removed1 := d1Outer elements_by_hierarchy removed
    let remaining := els.filter (fun e => !removed1.contains e.ref)
    if remaining.length > 1 then
      match pyMaxBy calculate_element_quality remaining with
      | some best =>
        remaining.foldl (fun acc e => if e.ref ≠ best.ref then e.ref :: acc else acc)
          removed1
      | none => removed1
    else removed1

/-- All identical-text groups in insertion order. -/
def d1Groups : List (String × List PageElement) → List String → List String
  | [], removed => removed
  | (_, els) :: rest, removed => d1Groups rest (d1Group els removed)

/-- Inner loop of the subset-text pass for one parent over every indexed
element. A nested child whose effective text is a strict substring of the
parent text is removed unless it is a likely pagination link (tag `a`,
text of at most 3 characters, digits or one of next/prev/previous/...). -/
def d2Child (parent : PageElement) (parent_text : String) (i : Nat) :
    List (Nat × PageElement) → List String → List String
  | [], removed => removed
  | (j, child) :: rest, removed =>
    if i = j || removed.contains child.ref then
      d2Child parent parent_text i rest removed
    else if isNestedSel parent.css_selector child.css_selector then
      let child_text :=
        if child.text ≠ "" then pyStrip child.text else pyStrip child.children_text
      let is_likely_pagination :=
        pyLower child.tag = "a" && child_text ≠ "" && child_text.length ≤ 3 &&
        (pyIsDigit child_text ||
          ["next", "prev", "previous", "..."].contains (pyLower child_text))
      if child_text ≠ "" && pyIn child_text parent_text && child_text ≠ parent_text &&
          !is_likely_pagination then
        d2Child parent parent_text i rest (child.ref :: removed)
      else d2Child parent parent_text i rest removed
    else d2Child parent parent_text i rest removed

/-- Outer loop of the subset-text pass over the globally sorted list. -/
def d2Outer (allIdx : List (Nat × PageElement)) :
    List (Nat × PageElement) → List String → List String
  | [], removed => removed
  | (i, parent) :: rest, removed =>
    if removed.contains parent.ref then d2Outer allIdx rest removed
    else
      let parent_text := effectiveText parent
      if parent_text = "" then d2Outer allIdx rest removed
      else d2Outer allIdx rest (d2Child parent parent_text i allIdx removed)

/-- `_deduplicate_nested_elements`: identical-text grouping pass followed
by the subset-text nesting pass; survivors keep the original order. -/
def deduplicate_nested_elements (interactive_elements : List PageElement) :
    List PageElement :=
  if interactive_elements.isEmpty then interactive_elements
  else
    let removedA := d1Groups (groupByEffectiveText interactive_elements) []
    let sorted_elements :=
      pySorted (fun a b => a.css_selector.length < b.css_selector.length)
        interactive_elements
    let indexed := sorted_elements.enum
    let removedB := d2Outer indexed indexed removedA
    interactive_elements.filter (fun e => !removedB.contains e.ref)

/-! ## CSS selector pattern canonicalisation (`_extract_css_pattern`)

Each regular-expression substitution of the source is rendered as a direct
left-to-right scanner with the same matching semantics. -/

/-- Character class `[\w-]` of the id-suffix substitutions. -/
def wordDashClass (c : Char) : Bool :=
  c.isAlphanum || c = '_' || c = '-'

/-- Search after a `#` for the lazy split of
`([\w-]+?)<sep>[A-Za-z0-9]{6,}`: grow the group minimally; at each
candidate separator check for at least six alphanumerics (the greedy tail
consumes the whole alphanumeric run). Returns the group and the input
remaining after the match. -/
def huGo (sep : Char) (groupRev : List Char) : List Char → Option (List Char × List Char)
  | [] => none
  | c :: rest =>
    if c = sep && !groupRev.isEmpty &&
        (rest.takeWhile Char.isAlphanum).length ≥ 6 then
      some (groupRev.reverse, rest.drop (rest.takeWhile Char.isAlphanum).length)
    else if wordDashClass c then huGo sep (c :: groupRev) rest
    else none

/-- Scanner for `#([\w-]+?)_[A-Za-z0-9]{6,} -> #\1_*` (and the `-`
variant): fuel is the input length and each step consumes at least one
character. -/
def subHashSepAux (sep : Char) : Nat → List Char → List Char
  | 0, l => l
  | _ + 1, [] => []
  | fuel + 1, c :: rest =>
    if c = '#' then
      match huGo sep [] rest with
      | some (group, remainder) =>
        '#' :: (group ++ sep :: '*' :: subHashSepAux sep fuel remainder)
      | none => c :: subHashSepAux sep fuel rest
    else c :: subHashSepAux sep fuel rest

/-- One id-suffix substitution pass over a whole character list. -/
def subHashSep (sep : Char) (l : List Char) : List Char :=
  subHashSepAux sep l.length l

/-- Lookahead `(?=\s|>|$)` of the standalone-hash substitution. -/
def lookahead3Ok : List Char → Bool
  | [] => true
  | c :: _ => c.isWhitespace || c = '>'

/-- Scanner for `#[A-Za-z0-9]{8,}(?=\s|>|$) -> #*`. -/
def subHashIdAux : Nat → List Char → List Char
  | 0, l => l
  | _ + 1, [] => []
  | fuel + 1, c :: rest =>
    if c = '#' then
      let run := rest.takeWhile Char.isAlphanum
      if run.length ≥ 8 && lookahead3Ok (rest.drop run.length) then
        '#' :: '*' :: subHashIdAux fuel (rest.drop run.length)
      else c :: subHashIdAux fuel rest
    else c :: subHashIdAux fuel rest

/-- Scanner for `:nth-child\(\d+\) -> :nth-child(*)`. -/
def subNthChildAux : Nat → List Char → List Char
  | 0, l => l
  | _ + 1, [] => []
  | fuel + 1, c :: rest =>
    if (":nth-child(".data).isPrefixOf (c :: rest) then
      let after := (c :: rest).drop 11
      let ds := after.takeWhile Char.isDigit
      match ds, after.drop ds.length with
      | _ :: _, ')' :: tail2 =>
        (":nth-child(*)".data) ++ subNthChildAux fuel tail2
      | _, _ => c :: subNthChildAux fuel rest
    else c :: subNthChildAux fuel rest

/-- Lookahead `(?=\s|>|\.|\[|$)` of the numeric-suffix substitution. -/
def lookahead5Ok : List Char → Bool
  | [] => true
  | c :: _ => c.isWhitespace || c = '>' || c = '.' || c = '['

/-- Scanner for `([_-])\d+(?=\s|>|\.|\[|$) -> \1*`. -/
def subNumSuffixAux : Nat → List Char → List Char
  | 0, l => l
  | _ + 1, [] => []
  | fuel + 1, c :: rest =>
    if c = '_' || c = '-' then
      let ds := rest.takeWhile Char.isDigit
      if !ds.isEmpty && lookahead5Ok (rest.drop ds.length) then
        c :: '*' :: subNumSuffixAux fuel (rest.drop ds.length)
      else c :: subNumSuffixAux fuel rest
    else c :: subNumSuffixAux fuel rest

/-- `_extract_css_pattern`: the five substitutions applied in source
order. -/
def extract_css_pattern (css_selector : String) : String :=
  let p := subHashSep '_' css_selector.data
  let p := subHashSep '-' p
  let p := subHashIdAux p.length p
  let p := subNthChildAux p.length p
  let p := subNumSuffixAux p.length p
  String.mk p

/-! ## Pattern compression (`_compress_repetitive_patterns`,
`_detect_repeating_sequences`) -/

/-- Per-element signature: tag plus the sorted data-attribute keys
(excluding `data-agent-ref`). -/
def elemSignature (elem : PageElement) : String :=
  let data_attrs := pySorted (fun a b => a < b)
    ((elem.data_attributes.map (fun p => p.1)).filter (fun k => k ≠ "data-agent-ref"))
  elem.tag ++ ":" ++ pyJoin "," data_attrs

/-- Full non-overlapping chunks of length `L`
(`range(0, len - L + 1, L)` slicing); the ragged tail is discarded. The
fuel argument (at least the list length) makes the `L`-step recursion
structural. -/
def chunksOfAux (L : Nat) : Nat → List α → List (List α)
  | 0, _ => []
  | fuel + 1, xs =>
    if 0 < L ∧ L ≤ xs.length then xs.take L :: chunksOfAux L fuel (xs.drop L) else []

/-- Entry point with enough fuel for the whole list. -/
def chunksOf (L : Nat) (xs : List α) : List (List α) :=
  chunksOfAux L xs.length xs

/-- `max(sequence_counts.values())`: the largest multiplicity among the
chunks. -/
def maxMultiplicity (chunks : List (List String)) : Nat :=
  (chunks.map (fun c => chunks.count c)).foldr max 0

/-- The sequence-length search loop: for each `L` in
`range(2, min(11, n // 3))` count the most frequent `L`-chunk of the
signature list and keep the `(L, count)` with the largest count among
those meeting `count >= threshold // L`. -/
def bestSequence (signatures : List String) (compression_threshold n : Nat) :
    Option Nat × Nat :=
  (List.range' 2 (min 11 (n / 3) - 2)).foldl (fun acc seq_length =>
    let chunks := chunksOf seq_length signatures
    if chunks.isEmpty then acc
    else
      let max_count := maxMultiplicity chunks
      if max_count ≥ compression_threshold / seq_length && max_count > acc.2 then
        (some seq_length, max_count)
      else acc) (none, 0)

/-- Count of consecutive `L`-chunks equal to `sig` from the start of
`es` (the `while` loop advancing `j` by `L`). The `0 < L` conjunct makes
the recursion well founded; the source only calls this with `L ≥ 2`. -/
def countInstancesAux (sig : List String) (L : Nat) : Nat → List PageElement → Nat
  | 0, _ => 0
  | fuel + 1, es =>
    if 0 < L ∧ L ≤ es.length ∧ (es.take L).map elemSignature = sig then
      1 + countInstancesAux sig L fuel (es.drop L)
    else 0

/-- Entry point with enough fuel for the whole list. -/
def countInstances (sig : List String) (L : Nat) (es : List PageElement) : Nat :=
  countInstancesAux sig L es.length es

/-- The `shown_elements` computation of the detector: when more than
`show_first + show_last` instances repeat, show the first `show_first`
and last `show_last` chunks of the covered block, otherwise the whole
block. -/
def detectShown (L show_first show_last instances : Nat)
    (all_sequence_elements : List PageElement) : List PageElement :=
  if instances > show_first + show_last then
    ((List.range show_first) ++
      (List.range' (instances - show_last) show_last)).flatMap
      (fun seq_idx => (all_sequence_elements.drop (seq_idx * L)).take L)
  else all_sequence_elements

/-- Compressor output item: a plain element or a compressed group
(`{"type": "element" | "compressed", ...}` dictionaries in the source). -/
inductive Item where
  | element (element : PageElement)
  | compressed (pattern : String) (count : Nat) (shown : List PageElement)
      (show_first : Nat) (show_last : Nat)
deriving DecidableEq, Repr

/-- Whether an item is a compressed group. -/
def Item.isCompressed : Item → Bool
  | Item.compressed .. => true
  | Item.element _ => false

/-- Main loop of the sequence detector: at each position count
consecutive instances of the current `L`-chunk signature; with at least 3
instances emit one compressed item covering `instances * L` elements
(showing the first `show_first` and last `show_last` chunks), otherwise
emit plain element items for one chunk (or one element when no full chunk
fits). The fuel argument (at least the list length; each step consumes at
least one element) makes the recursion structural. -/
def detectLoopAux (L show_first show_last : Nat) : Nat → List PageElement → List Item
  | 0, _ => []
  | _ + 1, [] => []
  | fuel + 1, e :: rest =>
    let current_sig := ((e :: rest).take L).map elemSignature
    let instances := countInstances current_sig L (e :: rest)
    if 3 ≤ instances then
      let total_elements := instances * L
      let all_sequence_elements := (e :: rest).take total_elements
      let shown_elements := detectShown L show_first show_last instances
        all_sequence_elements
      Item.compressed ("repeating sequence of " ++ toString L ++ " elements")
          total_elements shown_elements (show_first * L) (show_last * L)
        :: detectLoopAux L show_first show_last fuel ((e :: rest).drop total_elements)
    else
      let step := min (if 0 < instances then L else 1) (e :: rest).length
      ((e :: rest).take step).map Item.element
        ++ detectLoopAux L show_first show_last fuel ((e :: rest).drop step)

/-- Entry point of the detector main loop with enough fuel for the whole
list. -/
def detectLoop (L show_first show_last : Nat) (es : List PageElement) : List Item :=
  detectLoopAux L show_first show_last es.length es

/-- `_detect_repeating_sequences`: `None` when the list is shorter than
the threshold, when no sequence length qualifies, or when the main loop
compressed nothing (`sequence_instances > 0` in the source holds exactly
when some compressed item was emitted). -/
def detect_repeating_sequences (elements : List PageElement)
    (compression_threshold show_first show_last : Nat) : Option (List Item) :=
  if elements.length < compression_threshold then none
  else
    let signatures := elements.map elemSignature
    match bestSequence signatures compression_threshold elements.length with
    | (some best_sequence_length, best_repetition_count) =>
      if best_repetition_count ≥ 3 then
        let result := detectLoop best_sequence_length show_first show_last elements
        if result.any Item.isCompressed then some result else none
      else none
    | (none, _) => none

/-- The `shown_elements` computation of the fallback: for a long enough
run show the first `show_first` and the last `show_last` elements,
otherwise the whole run. -/
def runShown (show_first show_last run_length : Nat)
    (run_elements : List PageElement) : List PageElement :=
  if run_length > show_first + show_last then
    run_elements.take show_first ++ pyTailSlice show_last run_elements
  else run_elements

/-- Fallback loop: maximal runs of elements with the same canonical CSS
pattern; runs of at least `compression_threshold` become one compressed
item showing the first `show_first` and last `show_last` elements. The
fuel argument (at least the list length; each step consumes the whole
run) makes the recursion structural. -/
def compressLoopAux (compression_threshold show_first show_last : Nat) :
    Nat → List PageElement → List Item
  | 0, _ => []
  | _ + 1, [] => []
  | fuel + 1, e :: rest =>
    let current_pattern := extract_css_pattern e.css_selector
    let run_length := 1 + (rest.takeWhile
      (fun x => extract_css_pattern x.css_selector = current_pattern)).length
    if run_length ≥ compression_threshold then
      let run_elements := (e :: rest).take run_length
      let shown_elements := runShown show_first show_last run_length run_elements
      Item.compressed current_pattern run_length shown_elements show_first show_last
        :: compressLoopAux compression_threshold show_first show_last fuel
            ((e :: rest).drop run_length)
    else
      ((e :: rest).take run_length).map Item.element
        ++ compressLoopAux compression_threshold show_first show_last fuel
            ((e :: rest).drop run_length)

/-- Entry point of the fallback loop with enough fuel for the whole
list. -/
def compressLoop (compression_threshold show_first show_last : Nat)
    (es : List PageElement) : List Item :=
  compressLoopAux compression_threshold show_first show_last es.length es

/-- `_compress_repetitive_patterns`: try the sequence detector first,
fall back to identical-pattern runs. -/
def compress_repetitive_patterns (deduplicated_elements : List PageElement)
    (compression_threshold show_first show_last : Nat) : List Item :=
  if deduplicated_elements.isEmpty then []
  else
    match detect_repeating_sequences deduplicated_elements compression_threshold
        show_first show_last with
    | some sequence_result => sequence_result
    | none =>
      compressLoop compression_threshold show_first show_last deduplicated_elements

/-! ## Map rendering -/

/-- Python `if formatted: prompt_lines.append(formatted)`. -/
def optLine (formatted : Option String) : List String :=
  match formatted with
  | some s => if s ≠ "" then [s] else []
  | none => []

/-- Lines contributed by one compressor item, for a given single-element
formatter and mode: head samples, the compression notice when any
elements are hidden, then tail samples. The loop body is identical for
the interactive and the content formatter in the source. -/
def item_prompt_lines (fmt : PageElement → String → Option String)
    (map_type : String) : Item → List String
  | Item.element element_data => optLine (fmt element_data map_type)
  | Item.compressed pattern count shown show_first _show_last =>
    ((shown.take show_first).flatMap (fun elem => optLine (fmt elem map_type)))
    ++ (if count - shown.length > 0 then
          [if map_type = "rich" then
             "... [" ++ toString (count - shown.length) ++
               " more elements with pattern: " ++ pattern ++ "]"
           else
             "... [" ++ toString (count - shown.length) ++ " more similar elements]"]
        else [])
    ++ (if shown.length > show_first then
          (shown.drop show_first).flatMap (fun elem => optLine (fmt elem map_type))
        else [])

/-- All prompt lines from a compressor item list. -/
def prompt_lines_core (fmt : PageElement → String → Option String)
    (items : List Item) (map_type : String) : List String :=
  items.flatMap (item_prompt_lines fmt map_type)

/-- Prompt lines of `_format_interactive_map_for_prompt` (deduplication,
compression with the default 15/10/2 parameters, then per-element
formatting). -/
def interactive_prompt_lines (interactive_elements : List PageElement)
    (map_type : String) : List String :=
  prompt_lines_core format_single_element
    (compress_repetitive_patterns (deduplicate_nested_elements interactive_elements)
      15 10 2)
    map_type

/-- `_format_interactive_map_for_prompt`. -/
def format_interactive_map_for_prompt (interactive_elements : List PageElement)
    (map_type : String) : String :=
  pyJoin "\n" (interactive_prompt_lines interactive_elements map_type)

/-- Prompt lines of `_format_content_map_for_prompt` (compression with
the default parameters, no deduplication). -/
def content_prompt_lines (content_elements : List PageElement)
    (map_type : String) : List String :=
  prompt_lines_core format_single_content_element
    (compress_repetitive_patterns content_elements 15 10 2) map_type

/-- `_format_content_map_for_prompt`. -/
def format_content_map_for_prompt (content_elements : List PageElement)
    (map_type : String) : String :=
  pyJoin "\n" (content_prompt_lines content_elements map_type)

/-- `get_page_maps`: build the unified element map, split it into the
interactive and content buckets, and render both text blocks. Marker
cleanup is a driver-side DOM effect with no bearing on the returned
value. -/
def get_page_maps (script_result : Except String (List ElementData))
    (map_type : String) :
    List PageElement × String × List PageElement × String :=
  let all_elements := build_unified_element_map script_result
  let interactive_elements := all_elements.filter (fun e => e.is_interactive)
  let content_elements := all_elements.filter (fun e => !e.is_interactive)
  (interactive_elements,
   format_interactive_map_for_prompt interactive_elements map_type,
   content_elements,
   format_content_map_for_prompt content_elements map_type)

/-! ## Measures on compressor output and the rich/lean line relation

These definitions state properties of the pipeline; they are not part of
the source translation. -/

/-- How many input elements one compressor item accounts for. -/
def itemWeight : Item → Nat
  | Item.element _ => 1
  | Item.compressed _ count _ _ _ => count

/-- Total number of input elements accounted for by an item list. -/
def itemsWeight (items : List Item) : Nat :=
  (items.map itemWeight).sum

/-- The elements displayed by one item. -/
def itemShown : Item → List PageElement
  | Item.element element => [element]
  | Item.compressed _ _ shown _ _ => shown

/-- All displayed elements of an item list, in order. -/
def itemsShown (items : List Item) : List PageElement :=
  items.flatMap itemShown

/-- Kind, pattern, covered count and shown count of one item. -/
def itemSummary : Item → String × String × Nat × Nat
  | Item.element _ => ("element", "", 1, 1)
  | Item.compressed pattern count shown _ _ => ("compressed", pattern, count, shown.length)

/-- Two rendered lines agree up to mode: an element line with the same
body after the `CSS: <selector> | ` respectively `ref="<ref>" | ` prefix,
or a compression marker for the same hidden count differing only in
wording. -/
def lineEquiv (rich_line lean_line : String) : Prop :=
  (∃ sel ref body,
    rich_line = "CSS: " ++ sel ++ " | " ++ body ∧
    lean_line = "ref=\"" ++ ref ++ "\" | " ++ body) ∨
  (∃ (hidden : Nat) (pattern : String),
    rich_line = "... [" ++ toString hidden ++ " more elements with pattern: " ++
      pattern ++ "]" ∧
    lean_line = "... [" ++ toString hidden ++ " more similar elements]")

/-- A single-element formatter treats the two modes uniformly: for every
element it either skips in both modes or emits two non-empty lines
related by `lineEquiv`. -/
def pairSpec (fmt : PageElement → String → Option String) : Prop :=
  ∀ e : PageElement,
    (fmt e "rich" = none ∧ fmt e "lean" = none) ∨
    ∃ a b, fmt e "rich" = some a ∧ fmt e "lean" = some b ∧
      lineEquiv a b ∧ a ≠ "" ∧ b ≠ ""

/-! ## Concrete inputs used by the claims -/

/-- Scenario S1 content element: `<h1>Hi</h1>`, visible, no attributes. -/
def s1H1 : RawDom :=
  { tag := "h1", display := "block", visibility := "visible"
    offsetWidth := 100, offsetHeight := 20, attrs := []
    textContentTrimmed := "Hi", directText := "Hi", children := []
    ancestors := [], cursor := "auto", disabledProp := false
    cssSelector := "body > h1", cells := [] }

/-- Scenario S1 interactive element: `<a href="/x">Go</a>`, visible. -/
def s1A : RawDom :=
  { tag := "a", display := "inline", visibility := "visible"
    offsetWidth := 40, offsetHeight := 15, attrs := [("href", "/x")]
    textContentTrimmed := "Go", directText := "Go", children := []
    ancestors := [], cursor := "pointer", disabledProp := false
    cssSelector := "body > a", cells := [] }

/-- Scenario S1 document order: the `h1` precedes the `a`. -/
def s1Doms : List RawDom := [s1H1, s1A]

/-- A visible `<img alt="logo" src="/logo.png">` with no direct text. -/
def c2ImgDom : RawDom :=
  { tag := "img", display := "inline", visibility := "visible"
    offsetWidth := 50, offsetHeight := 20
    attrs := [("alt", "logo"), ("src", "/logo.png")]
    textContentTrimmed := "", directText := "", children := []
    ancestors := [], cursor := "auto", disabledProp := false
    cssSelector := "body > img", cells := [] }

/-- One of 50 structurally identical `<li class="row">x</li>` rows. -/
def mkLi (k : Nat) : PageElement :=
  { ref := toString k
    tag := "li"
    text := "x"
    attributes := { class_name := "row" }
    is_interactive := false
    css_selector := "ul > li.row:nth-child(" ++ toString (k + 1) ++ ")"
    index := k }

/-- The 50-row list of the compression-fidelity scenario. -/
def c3Elements : List PageElement := (List.range 50).map mkLi

/-- An anchor with text and a 150-character selector. -/
def c4ElemA : PageElement :=
  { ref := "0", tag := "a", text := "x", is_interactive := true
    css_selector := String.mk (List.replicate 150 'q') }

/-- The same anchor with a 250-character selector. -/
def c4ElemB : PageElement :=
  { ref := "1", tag := "a", text := "x", is_interactive := true
    css_selector := String.mk (List.replicate 250 'q') }

/-- Pagination container whose aggregated children text is
`"1 2 3 Next"`. -/
def c5Container : PageElement :=
  { ref := "0", tag := "nav", text := "", children_text := "1 2 3 Next"
    is_interactive := true, css_selector := "nav.pagination" }

/-- One pagination link nested inside the container. -/
def mkNavLink (k : Nat) (t : String) : PageElement :=
  { ref := toString k, tag := "a", text := t, is_interactive := true
    css_selector := "nav.pagination > a:nth-child(" ++ toString k ++ ")" }

/-- The pagination scenario: container plus the links 1, 2, 3, Next. -/
def c5Elements : List PageElement :=
  [c5Container, mkNavLink 1 "1", mkNavLink 2 "2", mkNavLink 3 "3",
   mkNavLink 4 "Next"]

/-- A visible interactive anchor whose direct text is 260 characters, so
the collector keeps all 260 and the host truncates to 250. -/
def c10Dom : RawDom :=
  { tag := "a", display := "inline", visibility := "visible"
    offsetWidth := 40, offsetHeight := 15, attrs := [("href", "/long")]
    textContentTrimmed := "t", directText := String.mk (List.replicate 260 'x')
    children := [], ancestors := [], cursor := "auto", disabledProp := false
    cssSelector := "body > a", cells := [] }

/-- The page element the pipeline builds from `c10Dom`: text truncated to
250 characters. -/
def c10Elem : PageElement :=
  { ref := "0", tag := "a", text := String.mk (List.replicate 250 'x')
    children_text := "", attributes := { href := "/long" }
    is_interactive := true, css_selector := "body > a", index := 0 }

/-! # Theorems -/

set_option maxRecDepth 8000 in
/-- C2: the claim that img passes the tag gate fails on the code: the
collector script set `staticTagsJs` omits img, so a visible `img` with an
`alt` attribute yields no element at all (the alt branch at lines 535-537
is unreachable); the Python-side `STATIC_TAGS` list does contain img,
matching the claim and showing the omission is a slip. -/
theorem c2_img_rejected_by_tag_gate :
    collector_script [c2ImgDom] = [] ∧
    staticTagsJs.contains "img" = false ∧
    STATIC_TAGS.contains "img" = true := by decide

set_option maxRecDepth 8000 in
/-- C4: two elements identical except for selector lengths 150 and 250
both score 145: the selector penalty is 5 in both cases because the
greater-than-200 branch sits in an unreachable elif, so the claimed
5-point difference does not occur. -/
theorem c4_selector_penalty_collapsed :
    calculate_element_quality c4ElemA = 145 ∧
    calculate_element_quality c4ElemB = 145 ∧
    ¬ (calculate_element_quality c4ElemA - calculate_element_quality c4ElemB = 5) := by
  decide

set_option maxRecDepth 8000 in
/-- C5: dedup on the pagination scenario removes the Next link (ref 4):
its text has 4 characters, so the 3-character bound of the
likely-pagination test leaves it unprotected, while the digit links
survive. The claim that none of the four links is removed fails. -/
theorem c5_next_link_removed :
    (deduplicate_nested_elements c5Elements).map (fun e => e.ref) =
      ["0", "1", "2", "3"] ∧
    ((deduplicate_nested_elements c5Elements).map (fun e => e.text)).contains "Next"
      = false ∧
    (c5Elements.map (fun e => e.text)).contains "Next" = true := by decide

/-- C6: the resolver fails with the selector-missing error exactly when
both arguments are absent (None or empty); a non-empty ref always yields
the data-agent-ref selector, shadowing any supplied selector; a selector
alone is returned unchanged. -/
theorem c6_resolve_selector_correct (selector ref : Option String) :
    ((resolve_selector selector ref =
        Except.error "Either selector or ref must be provided") ↔
      (pyTruthyOpt selector = false ∧ pyTruthyOpt ref = false)) ∧
    (pyTruthyOpt ref = true →
      resolve_selector selector ref =
        Except.ok ("[data-agent-ref=\"" ++ ref.getD "" ++ "\"]")) ∧
    (pyTruthyOpt ref = false → pyTruthyOpt selector = true →
      resolve_selector selector ref = Except.ok (selector.getD "")) := by
  by_cases hs : pyTruthyOpt selector <;> by_cases hr : pyTruthyOpt ref <;>
    simp [resolve_selector, hs, hr]

/-- C6 witness: the three behaviours at concrete inputs, each obtained
from `c6_resolve_selector_correct`. -/
theorem c6_resolve_selector_witness :
    resolve_selector none none =
      Except.error "Either selector or ref must be provided" ∧
    resolve_selector (some "div.x") (some "5") =
      Except.ok "[data-agent-ref=\"5\"]" ∧
    resolve_selector (some "div.x") none = Except.ok "div.x" := by
  refine ⟨?_, ?_, ?_⟩
  · exact (c6_resolve_selector_correct none none).1.mpr (by decide)
  · exact (c6_resolve_selector_correct (some "div.x") (some "5")).2.1 (by decide)
  · exact (c6_resolve_selector_correct (some "div.x") none).2.2 (by decide) (by decide)

/-- C7: when the collector script evaluation raises, get_page_maps
returns empty interactive elements, an empty interactive block, empty
content elements and an empty content block, for any map type. -/
theorem c7_script_error_empty_maps (msg map_type : String) :
    get_page_maps (Except.error msg) map_type = ([], "", [], "") := rfl

set_option maxRecDepth 8000 in
/-- C1 counterexample: on the S1 page the returned list is the
interactive `a` followed by the content `h1`, but their refs are "1" and
"0": refs follow document order, not the position in the returned list,
so the ref of the i-th element is not `str(i)` and the `a` does not get
ref "0". -/
theorem c1_counterexample_s1_refs :
    (build_unified_element_map (Except.ok (collector_script s1Doms))).map
      (fun e => (e.tag, e.ref)) = [("a", "1"), ("h1", "0")] ∧
    ¬ ((build_unified_element_map (Except.ok (collector_script s1Doms))).map
        (fun e => e.ref) = ["0", "1"]) := by
  constructor
  · decide
  · decide

set_option maxRecDepth 40000 in
/-- C3 counterexample: on the 50 identical li rows (threshold 15, show
first 10, show last 2) the rendered content block has 24 li lines, not
12, and its single marker is the repeating-sequence marker reporting 26
hidden elements, not a canonical-CSS-pattern marker reporting 50. -/
theorem c3_counterexample_li_lines :
    (content_prompt_lines c3Elements "rich").countP
      (fun l => pyStartsWith l "CSS: ul > li.row") = 24 ∧
    (content_prompt_lines c3Elements "rich").countP
      (fun l => pyStartsWith l "... [") = 1 ∧
    (content_prompt_lines c3Elements "rich").count
      "... [26 more elements with pattern: repeating sequence of 2 elements]" = 1 ∧
    ¬ ((content_prompt_lines c3Elements "rich").countP
      (fun l => pyStartsWith l "CSS: ul > li.row") = 12) := by
  refine ⟨by decide, by decide, by decide, by decide⟩

set_option maxRecDepth 40000 in
/-- C3 amended: the multi-element sequence detector fires first (at
sequence length 2 with 25 repetitions), producing one compressed item
covering all 50 elements with 24 shown; the block therefore renders 24 li
lines and one marker reporting 26 hidden elements with the wording
`repeating sequence of 2 elements`. -/
theorem c3_amended_sequence_compression :
    (compress_repetitive_patterns c3Elements 15 10 2).map itemSummary =
      [("compressed", "repeating sequence of 2 elements", 50, 24)] ∧
    (content_prompt_lines c3Elements "rich").countP
      (fun l => pyStartsWith l "CSS: ul > li.row") = 24 ∧
    (content_prompt_lines c3Elements "rich").count
      "... [26 more elements with pattern: repeating sequence of 2 elements]" = 1 := by
  refine ⟨by decide, by decide, by decide⟩

/-- Length of a Python slice. -/
theorem pyTake_length (s : String) (n : Nat) : (pyTake s n).length = min n s.length := by
  show (s.data.take n).length = min n s.length
  rw [List.length_take]
  rfl

/-- The guarded truncation used by the collector never exceeds its bound. -/
theorem ifTrunc_length_le (s : String) (n : Nat) :
    (if s ≠ "" && s.length > n then pyTake s n else s).length ≤ n := by
  split
  · rw [pyTake_length]; omega
  · rename_i h
    simp only [Bool.and_eq_true, ne_eq, decide_eq_true_eq, gt_iff_lt, not_and] at h
    by_cases he : s = ""
    · subst he; simp [String.length]
    · have := h he
      omega

/-- Collector text extraction yields at most 300 characters. -/
theorem collectText_length_le (d : RawDom) (t : String) :
    (collectText d t).length ≤ 300 := by
  simp only [collectText]
  exact ifTrunc_length_le _ 300

/-- Collector children-text extraction yields at most 200 characters. -/
theorem collectChildrenText_length_le (d : RawDom) (text : String) (b : Bool) :
    (collectChildrenText d text b).length ≤ 200 := by
  simp only [collectChildrenText]
  split
  · split
    · rename_i h; rw [pyTake_length]; omega
    · rename_i h; omega
  · simp [String.length]

/-- One collector step either drops the element or appends to exactly one
bucket a record whose ref is the current total count and whose text
fields obey the collector truncation bounds. -/
theorem collectStep_shape (inter cont : List ElementData) (d : RawDom) :
    collectStep inter cont d = (inter, cont) ∨
    ∃ ed : ElementData,
      ed.ref = inter.length + cont.length ∧
      ed.text.length ≤ 300 ∧ ed.children_text.length ≤ 200 ∧
      (collectStep inter cont d = (inter ++ [ed], cont) ∨
       collectStep inter cont d = (inter, cont ++ [ed])) := by
  simp only [collectStep]
  split_ifs with h1 h2 h3 h4 h5
  · exact Or.inl rfl
  · exact Or.inl rfl
  · exact Or.inl rfl
  · exact Or.inl rfl
  · exact Or.inr ⟨_, rfl, collectText_length_le d d.tag,
      collectChildrenText_length_le d _ _, Or.inl rfl⟩
  · exact Or.inr ⟨_, rfl, collectText_length_le d d.tag,
      collectChildrenText_length_le d _ _, Or.inr rfl⟩

/-- Ref invariant of the collector loop: if the refs accumulated so far
are a permutation of `range (count so far)`, the final output refs are a
permutation of `range (output length)`. -/
theorem collectLoop_refs_perm (doms : List RawDom) :
    ∀ (inter cont : List ElementData),
    ((inter ++ cont).map (fun e => e.ref)).Perm
      (List.range (inter.length + cont.length)) →
    ((collectLoop doms inter cont).map (fun e => e.ref)).Perm
      (List.range (collectLoop doms inter cont).length) := by
  induction doms with
  | nil =>
    intro inter cont h
    simpa [collectLoop, List.length_append] using h
  | cons d rest ih =>
    intro inter cont h
    rcases collectStep_shape inter cont d with heq | ⟨ed, href, _, _, heq2⟩
    · simp only [collectLoop, heq]
      exact ih inter cont h
    · rcases heq2 with heq | heq
      · simp only [collectLoop, heq]
        apply ih
        have hperm : (inter ++ [ed] ++ cont).Perm ((inter ++ cont) ++ [ed]) := by
          rw [List.append_assoc, List.append_assoc]
          exact List.Perm.append_left inter List.perm_append_comm
        have hlen : (inter ++ [ed]).length + cont.length =
            (inter.length + cont.length) + 1 := by
          simp only [List.length_append, List.length_singleton]
          omega
        rw [hlen, List.range_succ]
        have h2 : ((inter ++ cont) ++ [ed]).map (fun e => e.ref) =
            ((inter ++ cont).map (fun e => e.ref)) ++ [ed.ref] := by simp
        have h3 : (((inter ++ cont) ++ [ed]).map (fun e => e.ref)).Perm
            ((List.range (inter.length + cont.length)) ++ [ed.ref]) := by
          rw [h2]
          exact h.append_right [ed.ref]
        have h4 := (hperm.map (fun e => e.ref)).trans h3
        rw [href] at h4
        exact h4
      · simp only [collectLoop, heq]
        apply ih
        have hlen : inter.length + (cont ++ [ed]).length =
            (inter.length + cont.length) + 1 := by
          simp only [List.length_append, List.length_singleton]
          omega
        rw [hlen, List.range_succ]
        have h2 : (inter ++ (cont ++ [ed])).map (fun e => e.ref) =
            ((inter ++ cont).map (fun e => e.ref)) ++ [ed.ref] := by
          rw [← List.append_assoc]
          simp
        have h4 : ((inter ++ (cont ++ [ed])).map (fun e => e.ref)).Perm
            ((List.range (inter.length + cont.length)) ++ [ed.ref]) := by
          rw [h2]
          exact h.append_right [ed.ref]
        rw [href] at h4
        exact h4

/-- Text-length invariant of the collector loop. -/
theorem collectLoop_bounds (doms : List RawDom) :
    ∀ (inter cont : List ElementData),
    (∀ x ∈ inter ++ cont, x.text.length ≤ 300 ∧ x.children_text.length ≤ 200) →
    ∀ x ∈ collectLoop doms inter cont,
      x.text.length ≤ 300 ∧ x.children_text.length ≤ 200 := by
  induction doms with
  | nil =>
    intro inter cont h
    simpa [collectLoop] using h
  | cons d rest ih =>
    intro inter cont h
    rcases collectStep_shape inter cont d with heq | ⟨ed, _, ht, hc, heq2⟩
    · simp only [collectLoop, heq]
      exact ih inter cont h
    · rcases heq2 with heq | heq
      · simp only [collectLoop, heq]
        apply ih
        intro x hx
        simp only [List.mem_append, List.mem_singleton] at hx
        rcases hx with (hx | rfl) | hx
        · exact h x (by simp [hx])
        · exact ⟨ht, hc⟩
        · exact h x (by simp [hx])
      · simp only [collectLoop, heq]
        apply ih
        intro x hx
        simp only [List.mem_append, List.mem_singleton] at hx
        rcases hx with hx | (hx | rfl)
        · exact h x (by simp [hx])
        · exact h x (by simp [hx])
        · exact ⟨ht, hc⟩

set_option maxRecDepth 8000 in
/-- C1 amended: the collector assigns refs 0,1,2,... in document order
across both buckets, so the refs of the returned list (interactives then
contents) are exactly a permutation of `0..n-1`; the per-index equality
`ref of the i-th element = str(i)` does not hold: on the S1 page the
interactive `a` is returned first with ref "1" and the content `h1`
second with ref "0". -/
theorem c1_amended_refs :
    (∀ doms : List RawDom,
      ((collector_script doms).map (fun e => e.ref)).Perm
        (List.range (collector_script doms).length)) ∧
    (build_unified_element_map (Except.ok (collector_script s1Doms))).map
      (fun e => (e.tag, e.ref, e.is_interactive)) =
      [("a", "1", true), ("h1", "0", false)] := by
  constructor
  · intro doms
    exact collectLoop_refs_perm doms [] [] (by simp)
  · decide

/-- C10: in every built element map, interactive elements carry at most
250 characters of text (host re-truncation), content elements at most 300
(collector cap; the host 500 cap never bites), and children_text at most
200 characters. -/
theorem c10_text_length_bounds (doms : List RawDom) (e : PageElement)
    (hmem : e ∈ build_unified_element_map (Except.ok (collector_script doms))) :
    (e.is_interactive = true → e.text.length ≤ 250) ∧
    (e.is_interactive = false → e.text.length ≤ 300) ∧
    e.children_text.length ≤ 200 := by
  simp only [build_unified_element_map, collect_and_process_elements,
    List.mem_map] at hmem
  obtain ⟨⟨i, ed⟩, hin, rfl⟩ := hmem
  have hed : ed ∈ collectLoop doms [] [] := by
    rw [List.enum_eq_zip_range] at hin
    exact (List.of_mem_zip hin).2
  have hbounds := collectLoop_bounds doms [] [] (by simp) ed hed
  refine ⟨?_, ?_, ?_⟩
  · intro hi
    simp only [toPageElement] at hi ⊢
    rw [hi]
    split
    · rw [pyTake_length]
      have h250 : (if (true : Bool) = true then (250 : Nat) else 500) = 250 := rfl
      rw [h250]
      omega
    · simp [String.length]
  · intro hi
    simp only [toPageElement] at hi ⊢
    rw [hi]
    split
    · rw [pyTake_length]
      have := hbounds.1
      omega
    · simp [String.length]
  · simp only [toPageElement]
    split
    · rw [pyTake_length]; omega
    · rename_i hne
      have := hbounds.2
      omega

set_option maxRecDepth 8000 in
/-- C10 witness: the element built from `c10Dom` (interactive, 260
characters of direct text) is in the map and satisfies the bounds, its
text having been truncated to 250. -/
theorem c10_text_length_witness :
    c10Elem ∈ build_unified_element_map (Except.ok (collector_script [c10Dom])) ∧
    ((c10Elem.is_interactive = true → c10Elem.text.length ≤ 250) ∧
     (c10Elem.is_interactive = false → c10Elem.text.length ≤ 300) ∧
     c10Elem.children_text.length ≤ 200) :=
  ⟨by decide, c10_text_length_bounds [c10Dom] c10Elem (by decide)⟩

theorem itemsWeight_cons (x : Item) (xs : List Item) :
    itemsWeight (x :: xs) = itemWeight x + itemsWeight xs := by
  simp [itemsWeight]

theorem itemsWeight_append (a b : List Item) :
    itemsWeight (a ++ b) = itemsWeight a + itemsWeight b := by
  simp [itemsWeight]

theorem itemsShown_cons (x : Item) (xs : List Item) :
    itemsShown (x :: xs) = itemShown x ++ itemsShown xs := by
  simp [itemsShown]

theorem itemsShown_append (a b : List Item) :
    itemsShown (a ++ b) = itemsShown a ++ itemsShown b := by
  simp [itemsShown]

theorem itemsWeight_map_element (xs : List PageElement) :
    itemsWeight (xs.map Item.element) = xs.length := by
  induction xs with
  | nil => rfl
  | cons x t ih => simp [itemsWeight, itemWeight] at ih ⊢; omega

theorem itemsShown_map_element (xs : List PageElement) :
    itemsShown (xs.map Item.element) = xs := by
  induction xs with
  | nil => rfl
  | cons x t ih => simp [itemsShown, itemShown] at ih ⊢; exact ih

theorem countInstancesAux_mul_le (sig : List String) (L : Nat) :
    ∀ (fuel : Nat) (es : List PageElement), es.length ≤ fuel →
    countInstancesAux sig L fuel es * L ≤ es.length := by
  intro fuel
  induction fuel with
  | zero => intro es h; simp [countInstancesAux]
  | succ f ih =>
    intro es h
    simp only [countInstancesAux]
    split
    · rename_i hc
      have hrec := ih (es.drop L) (by simp only [List.length_drop]; omega)
      simp only [List.length_drop] at hrec
      rw [Nat.add_mul, one_mul]
      omega
    · simp

theorem countInstances_mul_le (sig : List String) (L : Nat) (es : List PageElement) :
    countInstances sig L es * L ≤ es.length :=
  countInstancesAux_mul_le sig L es.length es le_rfl

theorem countInstancesAux_pos (sig : List String) (L fuel : Nat)
    (es : List PageElement) (h : 0 < countInstancesAux sig L fuel es) : 0 < L := by
  cases fuel with
  | zero => simp [countInstancesAux] at h
  | succ f =>
    simp only [countInstancesAux] at h
    by_cases hc : 0 < L ∧ L ≤ es.length ∧ (es.take L).map elemSignature = sig
    · exact hc.1
    · rw [if_neg hc] at h; omega

theorem countInstances_pos (sig : List String) (L : Nat) (es : List PageElement)
    (h : 0 < countInstances sig L es) : 0 < L :=
  countInstancesAux_pos sig L es.length es h

theorem range_flat_chunks {α : Type} (b : List α) (L : Nat) (k : Nat) :
    (List.range k).flatMap (fun i => (b.drop (i * L)).take L) = b.take (k * L) := by
  induction k with
  | zero => simp
  | succ n ih =>
    rw [List.range_succ, List.flatMap_append, ih]
    simp only [List.flatMap_cons, List.flatMap_nil, List.append_nil]
    rw [← List.take_add]
    congr 1
    ring

theorem range'_flat_chunks {α : Type} (b : List α) (L : Nat) :
    ∀ (n a : Nat), (List.range' a n).flatMap (fun i => (b.drop (i * L)).take L) =
      (b.drop (a * L)).take (n * L) := by
  intro n
  induction n with
  | zero => intro a; simp
  | succ m ih =>
    intro a
    rw [List.range'_succ, List.flatMap_cons, ih (a + 1)]
    have hd : b.drop ((a + 1) * L) = (b.drop (a * L)).drop L := by
      rw [List.drop_drop]
      congr 1
      ring
    rw [hd, ← List.take_add]
    congr 1
    ring

theorem take_sublist_take {α : Type} (l : List α) {m n : Nat} (h : m ≤ n) :
    (l.take m).Sublist (l.take n) := by
  have e : l.take m = (l.take n).take m := by
    rw [List.take_take]
    congr 1
    omega
  rw [e]
  exact List.take_sublist _ _

theorem length_takeWhile_le {α : Type} (p : α → Bool) (L : List α) :
    (L.takeWhile p).length ≤ L.length := by
  induction L with
  | nil => simp
  | cons x t ih =>
    simp only [List.takeWhile]
    split
    · simp; omega
    · simp

theorem detectShown_sublist (L f l I : Nat) (block : List PageElement) :
    (detectShown L f l I block).Sublist block := by
  unfold detectShown
  split
  · rename_i hgt
    rw [List.flatMap_append, range_flat_chunks, range'_flat_chunks]
    have h1 : (block.take (f * L)).Sublist (block.take ((I - l) * L)) :=
      take_sublist_take block (Nat.mul_le_mul_right L (by omega))
    have h3 := List.Sublist.append h1
      (List.take_sublist (l * L) (block.drop ((I - l) * L)))
    rwa [List.take_append_drop] at h3
  · exact List.Sublist.refl _

theorem runShown_sublist (f l rl : Nat) (run : List PageElement)
    (hl : 0 < l) (hlen : run.length = rl) :
    (runShown f l rl run).Sublist run := by
  unfold runShown
  split
  · rename_i hgt
    rw [pyTailSlice, if_neg (by omega)]
    have h1 : (run.take f).Sublist (run.take (run.length - l)) :=
      take_sublist_take run (by omega)
    have h3 := List.Sublist.append h1
      (List.Sublist.refl (run.drop (run.length - l)))
    rwa [List.take_append_drop] at h3
  · exact List.Sublist.refl _

theorem detectLoopAux_acc (L f l : Nat) :
    ∀ (fuel : Nat) (es : List PageElement), es.length ≤ fuel →
    itemsWeight (detectLoopAux L f l fuel es) = es.length ∧
    (itemsShown (detectLoopAux L f l fuel es)).Sublist es := by
  intro fuel
  induction fuel with
  | zero =>
    intro es h
    have he : es = [] := List.eq_nil_of_length_eq_zero (by omega)
    subst he
    exact ⟨rfl, List.Sublist.refl _⟩
  | succ fu ih =>
    intro es h
    match es with
    | [] => exact ⟨rfl, List.Sublist.refl _⟩
    | e :: rest =>
      simp only [detectLoopAux]
      split
      · rename_i hc
        have hL : 0 < L :=
          countInstances_pos (((e :: rest).take L).map elemSignature) L (e :: rest)
            (by omega)
        have htot := countInstances_mul_le (((e :: rest).take L).map elemSignature) L
          (e :: rest)
        have hpos : 0 <
            countInstances (((e :: rest).take L).map elemSignature) L (e :: rest) * L :=
          Nat.mul_pos (by omega) hL
        have hrec := ih ((e :: rest).drop
            (countInstances (((e :: rest).take L).map elemSignature) L (e :: rest) * L))
          (by simp only [List.length_drop]; omega)
        constructor
        · rw [itemsWeight_cons, hrec.1]
          simp only [itemWeight, List.length_drop]
          omega
        · rw [itemsShown_cons]
          simp only [itemShown]
          have h4 := List.Sublist.append
            (detectShown_sublist L f l
              (countInstances (((e :: rest).take L).map elemSignature) L (e :: rest))
              ((e :: rest).take
                (countInstances (((e :: rest).take L).map elemSignature) L (e :: rest) * L)))
            hrec.2
          rwa [List.take_append_drop] at h4
      · rename_i hc
        have hstep_pos : 0 < min
            (if 0 < countInstances (((e :: rest).take L).map elemSignature) L (e :: rest)
             then L else 1) (e :: rest).length := by
          rcases Nat.eq_zero_or_pos
            (countInstances (((e :: rest).take L).map elemSignature) L (e :: rest))
            with h0 | h0
          · rw [h0]
            simp [List.length_cons]
          · have hL :=
              countInstances_pos (((e :: rest).take L).map elemSignature) L (e :: rest) h0
            rw [if_pos h0]
            simp only [List.length_cons]
            omega
        have hstep_le : min
            (if 0 < countInstances (((e :: rest).take L).map elemSignature) L (e :: rest)
             then L else 1) (e :: rest).length ≤ (e :: rest).length :=
          Nat.min_le_right _ _
        have hrec := ih ((e :: rest).drop (min
            (if 0 < countInstances (((e :: rest).take L).map elemSignature) L (e :: rest)
             then L else 1) (e :: rest).length))
          (by simp only [List.length_drop]; omega)
        constructor
        · rw [itemsWeight_append, itemsWeight_map_element, hrec.1]
          simp only [List.length_take, List.length_drop]
          omega
        · rw [itemsShown_append, itemsShown_map_element]
          have h4 := List.Sublist.append
            (List.Sublist.refl ((e :: rest).take (min
              (if 0 < countInstances (((e :: rest).take L).map elemSignature) L (e :: rest)
               then L else 1) (e :: rest).length)))
            hrec.2
          rwa [List.take_append_drop] at h4

theorem compressLoopAux_acc (thr f l : Nat) (hl : 0 < l) :
    ∀ (fuel : Nat) (es : List PageElement), es.length ≤ fuel →
    itemsWeight (compressLoopAux thr f l fuel es) = es.length ∧
    (itemsShown (compressLoopAux thr f l fuel es)).Sublist es := by
  intro fuel
  induction fuel with
  | zero =>
    intro es h
    have he : es = [] := List.eq_nil_of_length_eq_zero (by omega)
    subst he
    exact ⟨rfl, List.Sublist.refl _⟩
  | succ fu ih =>
    intro es h
    match es with
    | [] => exact ⟨rfl, List.Sublist.refl _⟩
    | e :: rest =>
      simp only [compressLoopAux]
      have hrun_le : 1 + (rest.takeWhile (fun x =>
          extract_css_pattern x.css_selector = extract_css_pattern e.css_selector)).length
          ≤ (e :: rest).length := by
        simp only [List.length_cons]
        have := length_takeWhile_le (fun x =>
          extract_css_pattern x.css_selector = extract_css_pattern e.css_selector) rest
        omega
      have hrec := ih ((e :: rest).drop
          (1 + (rest.takeWhile (fun x =>
            extract_css_pattern x.css_selector = extract_css_pattern e.css_selector)).length))
        (by simp only [List.length_drop]; omega)
      split
      · rename_i hthr
        constructor
        · rw [itemsWeight_cons, hrec.1]
          simp only [itemWeight, List.length_drop]
          omega
        · rw [itemsShown_cons]
          simp only [itemShown]
          have hlen : ((e :: rest).take
              (1 + (rest.takeWhile (fun x =>
                extract_css_pattern x.css_selector = extract_css_pattern e.css_selector)).length)).length
              = 1 + (rest.takeWhile (fun x =>
                extract_css_pattern x.css_selector = extract_css_pattern e.css_selector)).length := by
            rw [List.length_take]
            omega
          have h4 := List.Sublist.append
            (runShown_sublist f l _ _ hl hlen)
            hrec.2
          rwa [List.take_append_drop] at h4
      · constructor
        · rw [itemsWeight_append, itemsWeight_map_element, hrec.1]
          simp only [List.length_take, List.length_drop]
          omega
        · rw [itemsShown_append, itemsShown_map_element]
          have h4 := List.Sublist.append
            (List.Sublist.refl ((e :: rest).take
              (1 + (rest.takeWhile (fun x =>
                extract_css_pattern x.css_selector = extract_css_pattern e.css_selector)).length)))
            hrec.2
          rwa [List.take_append_drop] at h4

theorem detect_some_acc (elements : List PageElement) (thr f l : Nat)
    (r : List Item)
    (h : detect_repeating_sequences elements thr f l = some r) :
    itemsWeight r = elements.length ∧ (itemsShown r).Sublist elements := by
  unfold detect_repeating_sequences at h
  split at h
  · exact Option.noConfusion h
  · dsimp only [] at h
    split at h
    · rename_i L c heq
      split at h
      · split at h
        · injection h with h
          subst h
          exact detectLoopAux_acc L f l elements.length elements le_rfl
        · exact Option.noConfusion h
      · exact Option.noConfusion h
    · exact Option.noConfusion h

/-- C9: the compressor accounts for each input element exactly once — the
item weights (1 per element item, count per compressed item) sum to the
input length — and every shown element comes from the input in order
(the concatenated shown lists form a sublist of the input). -/
theorem c9_compressor_accounting (elements : List PageElement) :
    itemsWeight (compress_repetitive_patterns elements 15 10 2) = elements.length ∧
    (itemsShown (compress_repetitive_patterns elements 15 10 2)).Sublist elements := by
  unfold compress_repetitive_patterns
  split
  · rename_i hemp
    have he : elements = [] := by
      simpa [List.isEmpty_iff] using hemp
    subst he
    exact ⟨rfl, List.Sublist.refl _⟩
  · split
    · rename_i r hr
      exact detect_some_acc elements 15 10 2 r hr
    · exact compressLoopAux_acc 15 10 2 (by omega) elements.length elements le_rfl

theorem string_len_pos_ne (s : String) (h : 0 < s.length) : s ≠ "" := by
  intro he
  subst he
  exact absurd h (by decide)

theorem rich_line_ne (css body : String) :
    ("CSS: " ++ css ++ " | " ++ body) ≠ "" := by
  apply string_len_pos_ne
  simp only [String.length_append]
  have h5 : ("CSS: " : String).length = 5 := rfl
  omega

theorem lean_line_ne (ref body : String) :
    ("ref=\"" ++ ref ++ "\" | " ++ body) ≠ "" := by
  apply string_len_pos_ne
  simp only [String.length_append]
  have h5 : ("ref=\"" : String).length = 5 := rfl
  omega

theorem format_single_element_mode (e : PageElement) :
    (format_single_element e "rich" = none ∧ format_single_element e "lean" = none) ∨
    ∃ body, format_single_element e "rich" =
        some ("CSS: " ++ e.css_selector ++ " | " ++ body) ∧
      format_single_element e "lean" = some ("ref=\"" ++ e.ref ++ "\" | " ++ body) := by
  unfold format_single_element
  split
  · exact Or.inl ⟨rfl, rfl⟩
  · exact Or.inr ⟨_, rfl, rfl⟩

theorem format_single_content_element_mode (e : PageElement) :
    (format_single_content_element e "rich" = none ∧
      format_single_content_element e "lean" = none) ∨
    ∃ body, format_single_content_element e "rich" =
        some ("CSS: " ++ e.css_selector ++ " | " ++ body) ∧
      format_single_content_element e "lean" =
        some ("ref=\"" ++ e.ref ++ "\" | " ++ body) := by
  unfold format_single_content_element
  split
  · exact Or.inl ⟨rfl, rfl⟩
  · exact Or.inr ⟨_, rfl, rfl⟩

theorem format_single_element_pairSpec : pairSpec format_single_element := by
  intro e
  rcases format_single_element_mode e with ⟨h1, h2⟩ | ⟨body, h1, h2⟩
  · exact Or.inl ⟨h1, h2⟩
  · exact Or.inr ⟨_, _, h1, h2,
      Or.inl ⟨e.css_selector, e.ref, body, rfl, rfl⟩,
      rich_line_ne _ _, lean_line_ne _ _⟩

theorem format_single_content_element_pairSpec :
    pairSpec format_single_content_element := by
  intro e
  rcases format_single_content_element_mode e with ⟨h1, h2⟩ | ⟨body, h1, h2⟩
  · exact Or.inl ⟨h1, h2⟩
  · exact Or.inr ⟨_, _, h1, h2,
      Or.inl ⟨e.css_selector, e.ref, body, rfl, rfl⟩,
      rich_line_ne _ _, lean_line_ne _ _⟩

theorem optLine_pair {fmt : PageElement → String → Option String}
    (hp : pairSpec fmt) (e : PageElement) :
    List.Forall₂ lineEquiv (optLine (fmt e "rich")) (optLine (fmt e "lean")) := by
  rcases hp e with ⟨h1, h2⟩ | ⟨a, b, h1, h2, hline, ha, hb⟩
  · rw [h1, h2]
    exact List.Forall₂.nil
  · rw [h1, h2]
    simp only [optLine, if_pos ha, if_pos hb]
    exact List.Forall₂.cons hline List.Forall₂.nil

theorem flatMap_forall2 {α : Type} {R : String → String → Prop}
    {f g : α → List String} (l : List α)
    (h : ∀ x ∈ l, List.Forall₂ R (f x) (g x)) :
    List.Forall₂ R (l.flatMap f) (l.flatMap g) := by
  induction l with
  | nil => exact List.Forall₂.nil
  | cons a t ih =>
    simp only [List.flatMap_cons]
    exact List.rel_append (h a (by simp)) (ih (fun x hx => h x (by simp [hx])))

theorem item_prompt_lines_pair {fmt : PageElement → String → Option String}
    (hp : pairSpec fmt) (it : Item) :
    List.Forall₂ lineEquiv (item_prompt_lines fmt "rich" it)
      (item_prompt_lines fmt "lean" it) := by
  match it with
  | Item.element e =>
    exact optLine_pair hp e
  | Item.compressed pattern count shown show_first show_last =>
    simp only [item_prompt_lines]
    apply List.rel_append
    apply List.rel_append
    · exact flatMap_forall2 _ (fun x _ => optLine_pair hp x)
    · split
      · refine List.Forall₂.cons ?_ List.Forall₂.nil
        exact Or.inr ⟨count - shown.length, pattern, rfl, rfl⟩
      · exact List.Forall₂.nil
    · split
      · exact flatMap_forall2 _ (fun x _ => optLine_pair hp x)
      · exact List.Forall₂.nil

theorem prompt_lines_core_pair {fmt : PageElement → String → Option String}
    (hp : pairSpec fmt) (items : List Item) :
    List.Forall₂ lineEquiv (prompt_lines_core fmt items "rich")
      (prompt_lines_core fmt items "lean") := by
  unfold prompt_lines_core
  exact flatMap_forall2 items (fun it _ => item_prompt_lines_pair hp it)

/-- C8: rich and lean renderings produce line lists of equal length whose
corresponding lines agree up to the mode prefix for element lines and up
to wording for compression markers; whether an element line is skipped
does not depend on the mode. This holds for both the interactive and the
content rendering of any element list. -/
theorem c8_rich_lean_equivalence (elements : List PageElement) :
    (List.Forall₂ lineEquiv (interactive_prompt_lines elements "rich")
        (interactive_prompt_lines elements "lean") ∧
      (interactive_prompt_lines elements "rich").length =
        (interactive_prompt_lines elements "lean").length) ∧
    (List.Forall₂ lineEquiv (content_prompt_lines elements "rich")
        (content_prompt_lines elements "lean") ∧
      (content_prompt_lines elements "rich").length =
        (content_prompt_lines elements "lean").length) := by
  have h1 := prompt_lines_core_pair format_single_element_pairSpec
    (compress_repetitive_patterns (deduplicate_nested_elements elements) 15 10 2)
  have h2 := prompt_lines_core_pair format_single_content_element_pairSpec
    (compress_repetitive_patterns elements 15 10 2)
  exact ⟨⟨h1, h1.length_eq⟩, ⟨h2, h2.length_eq⟩⟩
